import Mathlib

/-!
Verification of the legal-aid incremental crawl-and-reconcile engine.

This file gives a shallow embedding, in Lean 4, of the algorithmic core of
the repository (the date-range partitioner, the coverage estimator, the
record schemas and their dict round-trips, the atomic persistence routine,
the duplicate accounting, the address formatter, and the exit-path
behaviour of the two orchestrator scripts), together with theorems that
settle the specification claims against that embedding.

Conventions used throughout:
- Python floats are modelled as rationals.
- Python dicts are modelled as association lists, with lookup returning
  the first binding of a key; a failing subscript is an explicit
  KeyError value in an Except result.
- Python dataclass instances are modelled as Lean structures; the
  dataclass helper asdict emits exactly the declared fields, in
  declaration order, which the embedding reproduces literally.
-/

namespace LegalAid

/-! ## Calendar dates

The scripts drive date windows through datetime.date values obtained by
strptime on mm/dd/yyyy strings and advanced with timedelta(days=1).
Dates are embedded as year/month/day triples of naturals in the proleptic
Gregorian calendar, which is exactly the arithmetic datetime.date uses.
-/

structure Date where
  year : Nat
  month : Nat
  day : Nat
deriving DecidableEq, Repr

def isLeapYear (y : Nat) : Bool :=
  (y % 4 == 0 && y % 100 != 0) || (y % 400 == 0)

def daysInMonth (y m : Nat) : Nat :=
  match m with
  | 1 => 31
  | 2 => if isLeapYear y then 29 else 28
  | 3 => 31
  | 4 => 30
  | 5 => 31
  | 6 => 30
  | 7 => 31
  | 8 => 31
  | 9 => 30
  | 10 => 31
  | 11 => 30
  | 12 => 31
  | _ => 0

/-- Days in the months of year `y` strictly before month `m`. -/
def cumDays (y : Nat) : Nat → Nat
  | 0 => 0
  | m + 1 => cumDays y m + daysInMonth y m

def Date.valid (d : Date) : Prop :=
  1 ≤ d.year ∧ 1 ≤ d.month ∧ d.month ≤ 12 ∧ 1 ≤ d.day ∧ d.day ≤ daysInMonth d.year d.month

instance (d : Date) : Decidable d.valid := by
  unfold Date.valid; infer_instance

/-- Rata-die style day count: the position of a date in the linear order of
calendar days, mirroring the integer ordinal that datetime.date uses
internally for comparison and timedelta arithmetic. -/
def dayNumber (d : Date) : Nat :=
  let p := d.year - 1
  365 * p + p / 4 + p / 400 + cumDays d.year d.month + d.day - p / 100

/-- Successor date, mirroring date + timedelta(days=1). -/
def nextDay (d : Date) : Date :=
  if d.day < daysInMonth d.year d.month then ⟨d.year, d.month, d.day + 1⟩
  else if d.month < 12 then ⟨d.year, d.month + 1, 1⟩
  else ⟨d.year + 1, 1, 1⟩

/-! ## The date-range partitioner

Embedding of expand_date_range in src/utils.py and build_search_ranges in
src/search.py. The Python loop runs current from the start date while
current is at most the end date, collecting one day per iteration; the
embedding runs the same loop with the iteration count made explicit
(dayNumber is exactly the linear day ordinal that orders datetime.date
values, so the loop guard and the count agree with the source).
-/

def expandLoop (e : Date) : Nat → Date → List Date
  | 0, _ => []
  | fuel + 1, c =>
    if dayNumber c ≤ dayNumber e then c :: expandLoop e fuel (nextDay c) else []

/-- Embedding of expand_date_range: the list of calendar days from the
start date to the end date, inclusive. -/
def expandDateRange (s e : Date) : List Date :=
  expandLoop e (dayNumber e + 1 - dayNumber s) s

/-! ## The atomic persistence routine

Embedding of write_json_atomic in src/utils.py. The relevant filesystem
state is the contents of the destination file and of the temporary file
that the routine creates in the destination directory. Each step of the
routine is one state transformer, in program order; a crash after k steps
is modelled by running only the first k transformers.
-/

structure FileSys where
  dest : Option String
  tmp : Option String
deriving DecidableEq, Repr

/-- Steps of write_json_atomic, in program order: create the temporary
file in the destination directory, json.dump the data into it, flush it,
fsync it, then os.replace it over the destination (the atomic rename). -/
def writeJsonAtomicSteps (data : String) : List (FileSys → FileSys) :=
  [ fun fs => { fs with tmp := some "" },
    fun fs => { fs with tmp := some data },
    fun fs => fs,
    fun fs => fs,
    fun fs => { dest := fs.tmp, tmp := none } ]

/-- Run only the first k steps of a step list: the crash model. -/
def runFirstSteps (steps : List (FileSys → FileSys)) (k : Nat) (fs : FileSys) : FileSys :=
  (steps.take k).foldl (fun s f => f s) fs

/-! ## Coverage estimator

Embedding of get_search_coverage in src/search.py. The browser wait is an
external boundary: the notice element either renders with some text or
the wait times out, so the input is an optional string. On the text the
source extracts the maximal runs of decimal digits (re.findall with the
digit class), takes the first two as returned and total, and divides,
with every failure mode collapsing to the fraction 1.
-/

/-- Maximal runs of decimal digits in a character list, left to right:
the embedding of re.findall with the digit pattern. The accumulator holds
the current run, reversed. -/
def digitRunsAux : List Char → List Char → List (List Char)
  | [], acc => if acc.isEmpty then [] else [acc.reverse]
  | c :: rest, acc =>
    if c.isDigit then digitRunsAux rest (c :: acc)
    else if acc.isEmpty then digitRunsAux rest []
    else acc.reverse :: digitRunsAux rest []

def digitRuns (cs : List Char) : List (List Char) :=
  digitRunsAux cs []

/-- Value of a run of decimal digits, the embedding of int(). -/
def natOfDigits (ds : List Char) : Nat :=
  ds.foldl (fun n c => 10 * n + (c.toNat - 48)) 0

/-- Embedding of get_search_coverage. A none input is the timed-out wait
for the notice element; the except clause of the source maps it, and any
malformed notice, to the fraction 1. -/
def getSearchCoverage (notice : Option String) : ℚ :=
  match notice with
  | none => 1
  | some text =>
    match (digitRuns text.data).map natOfDigits with
    | returned :: total :: _ =>
      if total = 0 then 1 else (returned : ℚ) / (total : ℚ)
    | _ => 1

/-! ## Date-range partitioner top level

Embedding of build_search_ranges in src/search.py. Coverage is a float in
the source, modelled as a rational; math.isclose with rel_tol zero and
abs_tol 1e-9 is the absolute comparison against 1/1000000000.
-/

def buildSearchRanges (s e : Date) (coverage : ℚ) : List (Date × Date) :=
  if 999 / 1000 ≤ coverage ∨ |coverage - 1| ≤ 1 / 1000000000 then [(s, e)]
  else (expandDateRange s e).map fun d => (d, d)

/-! ## Record schemas

Embedding of src/schemas.py. Python values that can appear in the JSON
dicts the program writes are strings, nulls, and the rational coverage
factor; dicts are association lists in field order.
-/

inductive PyVal where
  | s (v : String)
  | q (v : ℚ)
  | none
deriving DecidableEq, Repr

def optVal : Option String → PyVal
  | Option.none => PyVal.none
  | Option.some v => PyVal.s v

/-- The CourtCase dataclass of src/schemas.py: exactly the eleven
declared fields, in declaration order. The fields annotated Optional in
the source are Option valued here. -/
structure CourtCase where
  case_number : String
  status : String
  file_date : String
  primary_party : String
  defendant : Option String
  plaintiff : Option String
  init_action : Option String
  address : Option String
  zipcode : Option String
  created_at : String
  updated_at : String
deriving DecidableEq, Repr

/-- The declared field names of the CourtCase dataclass, in declaration
order: what dataclasses.fields and therefore asdict see. -/
def courtCaseFields : List String :=
  ["case_number", "status", "file_date", "primary_party", "defendant",
   "plaintiff", "init_action", "address", "zipcode", "created_at", "updated_at"]

/-- Embedding of CourtCase.to_dict, which is dataclasses.asdict: a dict
holding exactly the declared dataclass fields, in declaration order. -/
def CourtCase.to_dict (c : CourtCase) : List (String × PyVal) :=
  [("case_number", PyVal.s c.case_number),
   ("status", PyVal.s c.status),
   ("file_date", PyVal.s c.file_date),
   ("primary_party", PyVal.s c.primary_party),
   ("defendant", optVal c.defendant),
   ("plaintiff", optVal c.plaintiff),
   ("init_action", optVal c.init_action),
   ("address", optVal c.address),
   ("zipcode", optVal c.zipcode),
   ("created_at", PyVal.s c.created_at),
   ("updated_at", PyVal.s c.updated_at)]

/-- Reading a required string-annotated field out of a kwargs dict for
the generated dataclass init. A missing key is the TypeError that Python
raises for a missing required argument; the embedding also types the
bound value by its dataclass annotation. -/
def reqStrField (d : List (String × PyVal)) (k : String) : Except String String :=
  match List.lookup k d with
  | Option.some (PyVal.s v) => Except.ok v
  | Option.some _ => Except.error ("TypeError: bad value for " ++ k)
  | Option.none => Except.error ("TypeError: missing required argument " ++ k)

/-- Reading an Optional-annotated field out of a kwargs dict: null binds
to an absent value. -/
def optStrField (d : List (String × PyVal)) (k : String) : Except String (Option String) :=
  match List.lookup k d with
  | Option.some (PyVal.s v) => Except.ok (Option.some v)
  | Option.some PyVal.none => Except.ok Option.none
  | Option.some _ => Except.error ("TypeError: bad value for " ++ k)
  | Option.none => Except.error ("TypeError: missing required argument " ++ k)

/-- Embedding of CourtCase(**d), the keyword expansion of a stored dict
into the generated dataclass init: a key outside the declared parameter
list is the TypeError Python raises for an unexpected keyword argument,
and every declared parameter must be bound since none has a default. -/
def courtCaseOfKwargs (d : List (String × PyVal)) : Except String CourtCase :=
  if (d.map Prod.fst).all (fun k => courtCaseFields.contains k) then do
    let case_number ← reqStrField d "case_number"
    let status ← reqStrField d "status"
    let file_date ← reqStrField d "file_date"
    let primary_party ← reqStrField d "primary_party"
    let defendant ← optStrField d "defendant"
    let plaintiff ← optStrField d "plaintiff"
    let init_action ← optStrField d "init_action"
    let address ← optStrField d "address"
    let zipcode ← optStrField d "zipcode"
    let created_at ← reqStrField d "created_at"
    let updated_at ← reqStrField d "updated_at"
    Except.ok ⟨case_number, status, file_date, primary_party, defendant,
      plaintiff, init_action, address, zipcode, created_at, updated_at⟩
  else Except.error "TypeError: unexpected keyword argument"

/-- A CourtCase instance at run time in crook.py: the dataclass core plus
the three table attributes that the crawl assigns onto the instance
dynamically. Python permits those assignments, but they never become
dataclass fields, so asdict does not see them. Each table row is a flat
field mapping. -/
structure CourtCaseObj where
  core : CourtCase
  docket_entries : List (List (String × String))
  dispositions : List (List (String × String))
  judgments : List (List (String × String))

/-- Embedding of to_dict called on the run-time instance: asdict reflects
over the declared dataclass fields only. -/
def CourtCaseObj.to_dict (o : CourtCaseObj) : List (String × PyVal) :=
  o.core.to_dict

/-- Extraction of one optional sub-table on the detail page (docket,
disposition, or judgment): an absent table is an empty sequence, and rows
with fewer than the required cell count are skipped. -/
def extractTableRows (table : Option (List (List String))) (minCols : Nat) :
    List (List String) :=
  match table with
  | Option.none => []
  | Option.some rows => rows.filter (fun r => decide (minCols ≤ r.length))

/-- The CaseSearchConfig dataclass of src/schemas.py, with the sleep
bounds as rationals. -/
structure CaseSearchConfig where
  court_departments : List String
  court_divisions : List String
  court_locations : List String
  results_per_page : String
  start_date : String
  end_date : String
  case_types : List String
  cities : List String
  statuses : List String
  party_types : List String
  min_sleep : ℚ
  max_sleep : ℚ
deriving DecidableEq, Repr

/-- The methods the CaseSearchConfig class body declares in
src/schemas.py: to_dict and nothing else. Dataclass code generation adds
only dunder methods, so ordinary attribute lookup on an instance resolves
exactly the names in this list. -/
def caseSearchConfigMethods : List String := ["to_dict"]

/-- Embedding of the derived-config construction in crook.py, which calls
main_search_config.copy(start_date=d, end_date=d): attribute lookup of
the name copy on the instance, then the intended date-window override.
An attribute name outside the class methods is an AttributeError. -/
def crookDerivedConfig (cfg : CaseSearchConfig) (d : String) :
    Except String CaseSearchConfig :=
  if caseSearchConfigMethods.contains "copy" then
    Except.ok { cfg with start_date := d, end_date := d }
  else
    Except.error "AttributeError: CaseSearchConfig object has no attribute copy"

/-- Embedding of the derived-config construction in main.py, which calls
dataclasses.replace(main_search_config, start_date=s, end_date=e). -/
def mainDerivedConfig (cfg : CaseSearchConfig) (s e : String) : CaseSearchConfig :=
  { cfg with start_date := s, end_date := e }

/-! ## Python dict subscripts

Association-list model of dict subscript reads and writes: reading a
missing key is a KeyError, assignment updates the first binding in place
or appends a new one, preserving insertion order like a Python dict.
-/

def dictGet {α : Type} (d : List (String × α)) (k : String) : Except String α :=
  match List.lookup k d with
  | Option.some v => Except.ok v
  | Option.none => Except.error ("KeyError: " ++ k)

def dictSet {α : Type} (d : List (String × α)) (k : String) (v : α) :
    List (String × α) :=
  match d with
  | [] => [(k, v)]
  | (k2, v2) :: rest => if k2 == k then (k2, v) :: rest else (k2, v2) :: dictSet rest k v

/-! ## Coverage bookkeeping of the orchestrators

Embedding of the coverage-entry writes. In crook.py the per-window entry
with keys found, duplicates, recorded, accessible is created by the
statement case_records[coverage][search_date] = entry, a subscript chain
rooted at the persistent records store; the later counter updates index
run_data[coverage][search_date] instead. In main.py the per-window entry
goes into run_data[coverage] but carries the keys factor, start_date,
end_date and is never updated afterwards.
-/

structure CovEntry where
  found : Nat
  duplicates : Nat
  recorded : Nat
  accessible : ℚ
deriving DecidableEq, Repr

/-- A value stored in the records dict: normally a case dict keyed by a
case number; the coverage subscript in crook.py would store a nested
table of coverage entries. -/
inductive StoreVal where
  | caseRec (d : List (String × PyVal))
  | covTable (d : List (String × CovEntry))
deriving DecidableEq, Repr

/-- Embedding of the crook.py statement that logs a window coverage
entry: case_records[coverage][search_date] = entry. The inner subscript
reads the coverage key of the records store first; if that key is absent
the statement raises KeyError before anything is stored. -/
def crookLogCoverage (caseRecords : List (String × StoreVal)) (searchDate : String)
    (cov : ℚ) : Except String (List (String × StoreVal)) := do
  let v ← dictGet caseRecords "coverage"
  match v with
  | StoreVal.covTable tbl =>
    Except.ok (dictSet caseRecords "coverage"
      (StoreVal.covTable (dictSet tbl searchDate ⟨0, 0, 0, cov⟩)))
  | StoreVal.caseRec _ =>
    Except.error "TypeError: subscript assignment on a case record"

/-- Embedding of the crook.py counter update
run_data[coverage][search_date][found] = n: it reads the window entry out
of the run-report coverage dict and raises KeyError if the window was
never logged there. -/
def crookSetCoverageFound (runCoverage : List (String × CovEntry)) (searchDate : String)
    (n : Nat) : Except String (List (String × CovEntry)) := do
  let entry ← dictGet runCoverage searchDate
  Except.ok (dictSet runCoverage searchDate { entry with found := n })

/-- Embedding of the main.py per-window coverage entry placed into
run_data[coverage]: a dict with keys factor, start_date, end_date. -/
def mainCovEntry (factor : ℚ) (s e : String) : List (String × PyVal) :=
  [("factor", PyVal.q factor), ("start_date", PyVal.s s), ("end_date", PyVal.s e)]

/-! ## Exit paths of the two orchestrator scripts

crook.py wraps the whole crawl in try/except/finally: the except clause
prints the fatal exception and the finally clause closes the browsing
session best-effort, computes the elapsed time, and persists the run
report and the records store through write_json_atomic, on every exit
path. main.py has no such handler: its persistence tail is straight-line
code after the crawl loop, so an uncaught exception terminates the
script before any of it runs. A script run is modelled by the effects
the crawl body performed together with the exception it raised, if any.
-/

inductive CrawlEffect where
  | closeSession
  | computeElapsed
  | writeRunReport
  | writeStore
  | exportExcel
  | printedFatal
deriving DecidableEq, Repr

/-- The persistence tail shared by both scripts, in program order: close
the session, compute the elapsed time, atomically write the run report,
atomically write the records store, export the workbook. -/
def cleanupAndPersistEffects : List CrawlEffect :=
  [CrawlEffect.closeSession, CrawlEffect.computeElapsed,
   CrawlEffect.writeRunReport, CrawlEffect.writeStore, CrawlEffect.exportExcel]

/-- Embedding of the crook.py script around a crawl body that performed
the given effects and possibly raised: the except clause prints the
exception, and the finally clause always runs the persistence tail, so
the script itself never propagates the crawl exception. -/
def crookScript (crawl : List CrawlEffect × Option String) :
    List CrawlEffect × Option String :=
  match crawl.2 with
  | Option.none => (crawl.1 ++ cleanupAndPersistEffects, Option.none)
  | Option.some _ =>
    (crawl.1 ++ (CrawlEffect.printedFatal :: cleanupAndPersistEffects), Option.none)

/-- Embedding of the main.py script around the same crawl body: the
persistence tail runs only when the crawl body finishes without raising;
an exception propagates and ends the script with no further effects. -/
def mainScript (crawl : List CrawlEffect × Option String) :
    List CrawlEffect × Option String :=
  match crawl.2 with
  | Option.none => (crawl.1 ++ cleanupAndPersistEffects, Option.none)
  | Option.some m => (crawl.1, Option.some m)

/-! ## Duplicate accounting and the run result set

Embedding of the per-page duplicate counting and of the detail loop that
records cases into the result set of the run. The skipped counter adds
the number of distinct case numbers that occur more than once on the
page; the detail loop skips any case number already present in the run
results (no re-extraction, no overwrite) and otherwise extracts the case
and appends it.
-/

/-- Embedding of the page-level duplicate count: the number of distinct
case numbers on the page whose occurrence count exceeds one, which both
scripts add onto the skipped counter. -/
def duplicateCaseCount (nums : List String) : Nat :=
  (nums.dedup.filter (fun n => decide (1 < nums.count n))).length

/-- Embedding of the detail loop over the extracted page rows: the first
component of the result is the run results dict after the loop, the
second lists the case numbers whose detail pages were actually visited
and extracted, in order. A case number already in the results dict is
skipped without extraction. -/
def recordLoop {α : Type} (results : List (String × α)) :
    List (String × α) → List (String × α) × List String
  | [] => (results, [])
  | (c, p) :: rest =>
    if (List.lookup c results).isSome then
      recordLoop results rest
    else
      let r := recordLoop (results ++ [(c, p)]) rest
      (r.1, c :: r.2)

/-! ## Address formatting

Embedding of the detail-page address extraction shared by main.py and
crook.py: the first address row yields the street tokens, the second the
place tokens read positionally as city, state, zip, each defaulting to
the empty string when absent. Street tokens are joined with single
spaces; city and state are joined with a comma, the zip is appended
after a space only when present, and the street line and the place line
are joined with a comma only when the place line is non-empty. The
result is the pair of the full address and the zip code. -/
def formatAddress (street_parts place_parts : List String) : String × String :=
  let city := (place_parts[0]?).getD ""
  let state := (place_parts[1]?).getD ""
  let zipc := (place_parts[2]?).getD ""
  let line1 := String.intercalate " " street_parts
  let line2 := String.intercalate ", " ([city, state].filter (fun x => x != "")) ++
    (if zipc = "" then "" else " " ++ zipc)
  let full := if line2 = "" then line1 else line1 ++ ", " ++ line2
  (full, zipc)


/-! ## Theorems

Supporting lemmas about the calendar embedding and the record loop,
followed by the claim theorems with their witnesses and
counterexamples.
-/

theorem daysInMonth_pos (y m : Nat) (h1 : 1 ≤ m) (hm : m ≤ 12) :
    1 ≤ daysInMonth y m := by
  interval_cases m <;> simp only [daysInMonth] <;> (try split) <;> omega

theorem nextDay_valid (d : Date) (hd : d.valid) : (nextDay d).valid := by
  obtain ⟨hy, hm1, hm2, hd1, hd2⟩ := hd
  unfold nextDay Date.valid
  split
  · dsimp only
    omega
  · split
    · dsimp only
      have := daysInMonth_pos d.year (d.month + 1) (by omega) (by omega)
      omega
    · dsimp only
      have : daysInMonth (d.year + 1) 1 = 31 := rfl
      omega

set_option maxHeartbeats 1600000 in
theorem dayNumber_nextDay (d : Date) (hd : d.valid) :
    dayNumber (nextDay d) = dayNumber d + 1 := by
  obtain ⟨hy, hm1, hm2, hd1, hd2⟩ := hd
  unfold nextDay
  split
  · simp only [dayNumber]
    omega
  · rename_i hlt
    split
    · rename_i hmon
      simp only [dayNumber, cumDays]
      omega
    · rename_i hmon
      have hm12 : d.month = 12 := by omega
      have hday : d.day = 31 := by
        rw [hm12] at hd2 hlt
        simp only [daysInMonth] at hd2 hlt
        omega
      have hc12 : cumDays d.year 12 = if isLeapYear d.year then 335 else 334 := by
        by_cases h : isLeapYear d.year = true <;> simp [cumDays, daysInMonth, h]
      simp only [dayNumber, hm12, hday, hc12]
      by_cases hl : isLeapYear d.year = true
      · rw [if_pos hl]
        simp only [isLeapYear, Bool.or_eq_true, Bool.and_eq_true, beq_iff_eq,
          bne_iff_ne, ne_eq] at hl
        simp only [cumDays, daysInMonth]
        omega
      · rw [if_neg hl]
        simp only [isLeapYear, Bool.or_eq_true, Bool.and_eq_true, beq_iff_eq,
          bne_iff_ne, ne_eq] at hl
        simp only [cumDays, daysInMonth]
        omega

theorem expandLoop_spec (e : Date) :
    ∀ (fuel : Nat) (c : Date), c.valid → dayNumber e + 1 - dayNumber c = fuel →
      (expandLoop e fuel c).map dayNumber = List.range' (dayNumber c) fuel ∧
        ∀ d ∈ expandLoop e fuel c, d.valid := by
  intro fuel
  induction fuel with
  | zero => intro c _ _; simp [expandLoop]
  | succ n ih =>
    intro c hc hcount
    have hle : dayNumber c ≤ dayNumber e := by omega
    have hstep : dayNumber (nextDay c) = dayNumber c + 1 := dayNumber_nextDay c hc
    have hvalid : (nextDay c).valid := nextDay_valid c hc
    have hrec := ih (nextDay c) hvalid (by omega)
    simp only [expandLoop, if_pos hle, List.map_cons, List.mem_cons]
    constructor
    · rw [hrec.1, hstep, List.range']
    · intro d hd
      rcases hd with h | h
      · exact h ▸ hc
      · exact hrec.2 d h

theorem expandDateRange_spec (s e : Date) (hs : s.valid) (_he : e.valid)
    (hse : dayNumber s ≤ dayNumber e) :
    (expandDateRange s e).map dayNumber =
        List.range' (dayNumber s) (dayNumber e + 1 - dayNumber s) ∧
      (∀ d ∈ expandDateRange s e, d.valid) ∧
      (expandDateRange s e).head? = some s := by
  have h := expandLoop_spec e (dayNumber e + 1 - dayNumber s) s hs rfl
  refine ⟨h.1, h.2, ?_⟩
  unfold expandDateRange
  have hpos : dayNumber e + 1 - dayNumber s = (dayNumber e - dayNumber s) + 1 := by omega
  rw [hpos]
  simp [expandLoop, if_pos hse]

/-! ## Theorems for claims C4 and C5 -/

/-- C4: every interruption of write_json_atomic that happens before the
final atomic-rename step leaves the destination file exactly as it was
before the write began, and the completed routine installs the new data
at the destination and removes the temporary file. -/
theorem c4_write_json_atomic_crash_safe (data : String) (fs : FileSys) (k : Nat)
    (hk : k < (writeJsonAtomicSteps data).length) :
    (runFirstSteps (writeJsonAtomicSteps data) k fs).dest = fs.dest ∧
    runFirstSteps (writeJsonAtomicSteps data) (writeJsonAtomicSteps data).length fs =
      { dest := some data, tmp := none } := by
  constructor
  · have h5 : (writeJsonAtomicSteps data).length = 5 := rfl
    rw [h5] at hk
    interval_cases k <;> rfl
  · rfl

/-- Witness for C4 at a concrete interruption point: crashing right after
the json.dump step leaves the previously committed contents in place. -/
theorem c4_write_json_atomic_crash_safe_witness :
    2 < (writeJsonAtomicSteps "new").length ∧
    (runFirstSteps (writeJsonAtomicSteps "new") 2 ⟨some "old", none⟩).dest = some "old" :=
  ⟨by decide, (c4_write_json_atomic_crash_safe "new" ⟨some "old", none⟩ 2 (by decide)).1⟩

/-- C5 (amended): build_search_ranges keeps the original window exactly
when the coverage fraction is at least 999/1000 or within 1e-9 of 1.0;
otherwise it returns one single-day window per calendar day from the
start date to the end date inclusive, in ascending day order; and an
equal start and end date always yield exactly one single-day window. -/
theorem c5_build_search_ranges (s e : Date) (c : ℚ)
    (hs : s.valid) (he : e.valid) (hse : dayNumber s ≤ dayNumber e) :
    ((999 / 1000 ≤ c ∨ |c - 1| ≤ 1 / 1000000000) →
        buildSearchRanges s e c = [(s, e)]) ∧
    (¬ (999 / 1000 ≤ c ∨ |c - 1| ≤ 1 / 1000000000) →
        buildSearchRanges s e c = ((expandDateRange s e).map fun d => (d, d)) ∧
        (expandDateRange s e).map dayNumber =
          List.range' (dayNumber s) (dayNumber e + 1 - dayNumber s) ∧
        (∀ d ∈ expandDateRange s e, d.valid) ∧
        (expandDateRange s e).head? = some s) ∧
    (s = e → buildSearchRanges s e c = [(s, s)]) := by
  have hone : expandDateRange s s = [s] := by
    unfold expandDateRange
    have h1 : dayNumber s + 1 - dayNumber s = 1 := by omega
    rw [h1]
    simp [expandLoop]
  refine ⟨fun h => ?_, fun h => ?_, fun h => ?_⟩
  · unfold buildSearchRanges
    rw [if_pos h]
  · obtain ⟨h1, h2, h3⟩ := expandDateRange_spec s e hs he hse
    refine ⟨?_, h1, h2, h3⟩
    unfold buildSearchRanges
    rw [if_neg h]
  · subst h
    unfold buildSearchRanges
    split
    · rfl
    · rw [hone]
      rfl

/-- Witness for C5 at concrete inputs: the window 09/01/2025 to
09/03/2025 with coverage one half. -/
theorem c5_build_search_ranges_witness :
    (Date.mk 2025 9 1).valid ∧ (Date.mk 2025 9 3).valid ∧
    dayNumber ⟨2025, 9, 1⟩ ≤ dayNumber ⟨2025, 9, 3⟩ ∧
    (((999 : ℚ) / 1000 ≤ (1 : ℚ) / 2 ∨ |(1 : ℚ) / 2 - 1| ≤ 1 / 1000000000) →
        buildSearchRanges ⟨2025, 9, 1⟩ ⟨2025, 9, 3⟩ ((1 : ℚ) / 2) =
          [(⟨2025, 9, 1⟩, ⟨2025, 9, 3⟩)]) ∧
    (¬ ((999 : ℚ) / 1000 ≤ (1 : ℚ) / 2 ∨ |(1 : ℚ) / 2 - 1| ≤ 1 / 1000000000) →
        buildSearchRanges ⟨2025, 9, 1⟩ ⟨2025, 9, 3⟩ ((1 : ℚ) / 2) =
          ((expandDateRange ⟨2025, 9, 1⟩ ⟨2025, 9, 3⟩).map fun d => (d, d)) ∧
        (expandDateRange ⟨2025, 9, 1⟩ ⟨2025, 9, 3⟩).map dayNumber =
          List.range' (dayNumber ⟨2025, 9, 1⟩)
            (dayNumber ⟨2025, 9, 3⟩ + 1 - dayNumber ⟨2025, 9, 1⟩) ∧
        (∀ d ∈ expandDateRange ⟨2025, 9, 1⟩ ⟨2025, 9, 3⟩, d.valid) ∧
        (expandDateRange ⟨2025, 9, 1⟩ ⟨2025, 9, 3⟩).head? = some ⟨2025, 9, 1⟩) ∧
    ((Date.mk 2025 9 1) = ⟨2025, 9, 3⟩ →
        buildSearchRanges ⟨2025, 9, 1⟩ ⟨2025, 9, 3⟩ ((1 : ℚ) / 2) =
          [(⟨2025, 9, 1⟩, ⟨2025, 9, 1⟩)]) := by
  refine ⟨by decide, by decide, by decide, ?_⟩
  exact c5_build_search_ranges ⟨2025, 9, 1⟩ ⟨2025, 9, 3⟩ ((1 : ℚ) / 2)
    (by decide) (by decide) (by decide)

/-- C5 counterexample: at coverage 0.9995, which is not within 1e-9 of
1.0, the claim as stated demands one window per calendar day, but the
source keeps the single original window because its threshold is 0.999. -/
theorem c5_threshold_counterexample :
    ¬ |(9995 : ℚ) / 10000 - 1| ≤ 1 / 1000000000 ∧
    ¬ (1 : ℚ) ≤ (9995 : ℚ) / 10000 ∧
    expandDateRange ⟨2025, 9, 1⟩ ⟨2025, 9, 3⟩ =
      [⟨2025, 9, 1⟩, ⟨2025, 9, 2⟩, ⟨2025, 9, 3⟩] ∧
    buildSearchRanges ⟨2025, 9, 1⟩ ⟨2025, 9, 3⟩ ((9995 : ℚ) / 10000) =
      [(⟨2025, 9, 1⟩, ⟨2025, 9, 3⟩)] ∧
    ([((⟨2025, 9, 1⟩ : Date), (⟨2025, 9, 3⟩ : Date))] ≠
      [(⟨2025, 9, 1⟩, ⟨2025, 9, 1⟩), (⟨2025, 9, 2⟩, ⟨2025, 9, 2⟩),
        (⟨2025, 9, 3⟩, ⟨2025, 9, 3⟩)]) := by
  refine ⟨by rw [abs_le]; norm_num, by norm_num, by decide, ?_, by decide⟩
  unfold buildSearchRanges
  rw [if_pos (Or.inl (by norm_num))]

/-- C8 (amended): the coverage estimator is total and never negative; it
returns exactly 1 when the notice is absent, holds fewer than two
numbers, or reports a zero total; otherwise it returns returned over
total for the first two numbers of the notice, a value that is at most 1
exactly when the reported returned count does not exceed the total. -/
theorem c8_get_search_coverage (notice : Option String) :
    0 ≤ getSearchCoverage notice ∧
    (notice = none → getSearchCoverage notice = 1) ∧
    (∀ t, notice = some t →
      (((digitRuns t.data).map natOfDigits).length < 2 →
          getSearchCoverage notice = 1) ∧
      (∀ r tot rest, (digitRuns t.data).map natOfDigits = r :: tot :: rest →
        (tot = 0 → getSearchCoverage notice = 1) ∧
        (tot ≠ 0 → getSearchCoverage notice = (r : ℚ) / (tot : ℚ) ∧
          (r ≤ tot → getSearchCoverage notice ≤ 1)))) := by
  rcases notice with _ | t
  · exact ⟨by norm_num [getSearchCoverage], fun _ => rfl, fun u hu => nomatch hu⟩
  · rcases hn : (digitRuns t.data).map natOfDigits with _ | ⟨r, _ | ⟨tot, rest⟩⟩
    · have hg : getSearchCoverage (some t) = 1 := by simp [getSearchCoverage, hn]
      refine ⟨?_, ?_, ?_⟩
      · rw [hg]; norm_num
      · intro h; cases h
      · intro u hu
        cases hu
        refine ⟨fun _ => hg, fun a b l hab => ?_⟩
        rw [hn] at hab
        cases hab
    · have hg : getSearchCoverage (some t) = 1 := by simp [getSearchCoverage, hn]
      refine ⟨?_, ?_, ?_⟩
      · rw [hg]; norm_num
      · intro h; cases h
      · intro u hu
        cases hu
        refine ⟨fun _ => hg, fun a b l hab => ?_⟩
        rw [hn] at hab
        simp at hab
    · have hg : getSearchCoverage (some t) =
          if tot = 0 then 1 else (r : ℚ) / (tot : ℚ) := by
        simp [getSearchCoverage, hn]
      have htotpos : tot ≠ 0 → (0 : ℚ) < (tot : ℚ) := fun h =>
        Nat.cast_pos.mpr (Nat.pos_of_ne_zero h)
      refine ⟨?_, ?_, ?_⟩
      · rw [hg]
        by_cases htot : tot = 0
        · rw [if_pos htot]; norm_num
        · rw [if_neg htot]
          exact div_nonneg (Nat.cast_nonneg r) (Nat.cast_nonneg tot)
      · intro h; cases h
      · intro u hu
        cases hu
        constructor
        · intro hl
          rw [hn] at hl
          simp at hl
          omega
        · intro a b l hab
          rw [hn] at hab
          simp only [List.cons.injEq] at hab
          obtain ⟨rfl, rfl, rfl⟩ := hab
          refine ⟨fun h0 => by rw [hg, if_pos h0], fun h0 => ?_⟩
          rw [hg, if_neg h0]
          refine ⟨rfl, fun hle => ?_⟩
          rw [div_le_one (htotpos h0)]
          exact_mod_cast hle

/-- Witness for C8 at a concrete notice reporting 100 of 150 records. -/
theorem c8_get_search_coverage_witness :
    getSearchCoverage (some "Returning 100 of 150 records.") = (100 : ℚ) / 150 ∧
    getSearchCoverage (some "Returning 100 of 150 records.") ≤ 1 := by
  have hn : (digitRuns ("Returning 100 of 150 records.").data).map natOfDigits =
      [100, 150] := by decide
  obtain ⟨-, -, h3⟩ := c8_get_search_coverage (some "Returning 100 of 150 records.")
  obtain ⟨-, h4⟩ := h3 _ rfl
  obtain ⟨-, h6⟩ := h4 100 150 [] hn
  obtain ⟨heq, h7⟩ := h6 (by norm_num)
  exact ⟨heq, h7 (by norm_num)⟩

/-- C8 counterexample: a notice whose first number exceeds its second
makes the source return a fraction strictly greater than 1, so the
estimator does not always return a value in the unit interval. -/
theorem c8_coverage_above_one_counterexample :
    getSearchCoverage (some "Returning 3 of 2 records.") = (3 : ℚ) / 2 ∧
    ¬ getSearchCoverage (some "Returning 3 of 2 records.") ≤ 1 := by
  have hn : (digitRuns ("Returning 3 of 2 records.").data).map natOfDigits =
      [3, 2] := by decide
  have hg : getSearchCoverage (some "Returning 3 of 2 records.") = (3 : ℚ) / 2 := by
    simp [getSearchCoverage, hn]
  exact ⟨hg, by rw [hg]; norm_num⟩

/-- Lookup in an association list is stable under appending further
bindings on the right. -/
theorem lookup_append_of_some {α : Type} {l1 l2 : List (String × α)} {a : String}
    {p : α} (h : List.lookup a l1 = some p) : List.lookup a (l1 ++ l2) = some p := by
  induction l1 with
  | nil => cases h
  | cons hd tl ih =>
    obtain ⟨k, v⟩ := hd
    simp only [List.cons_append, List.lookup] at h ⊢
    cases hak : (a == k) with
    | true => rw [hak] at h; exact h
    | false => rw [hak] at h; exact ih h

/-- C10: a dict persisted by CourtCase.to_dict carries exactly the eleven
declared dataclass fields, and expanding it back through CourtCase(**d)
succeeds and reproduces the original record on every field. -/
theorem c10_to_dict_kwargs_round_trip (c : CourtCase) :
    courtCaseOfKwargs (CourtCase.to_dict c) = Except.ok c ∧
    (CourtCase.to_dict c).map Prod.fst = courtCaseFields := by
  obtain ⟨cn, st, fd, pp, df, pl, ia, ad, zc, ca, ua⟩ := c
  refine ⟨?_, rfl⟩
  cases df <;> cases pl <;> cases ia <;> cases ad <;> cases zc <;> rfl

/-- C9: to_dict on the run-time case object reflects only the declared
dataclass core, so the docket, disposition and judgment tables assigned
onto the instance never appear in the persisted dict, whatever they
hold; an absent sub-table does yield an empty sequence at extraction
time, but no table survives persistence. -/
theorem c9_tables_dropped_by_to_dict (o : CourtCaseObj) :
    CourtCaseObj.to_dict o = o.core.to_dict ∧
    (CourtCaseObj.to_dict o).map Prod.fst = courtCaseFields ∧
    List.lookup "docket_entries" (CourtCaseObj.to_dict o) = Option.none ∧
    List.lookup "dispositions" (CourtCaseObj.to_dict o) = Option.none ∧
    List.lookup "judgments" (CourtCaseObj.to_dict o) = Option.none ∧
    (∀ n : Nat, extractTableRows Option.none n = []) :=
  ⟨rfl, rfl, rfl, rfl, rfl, fun _ => rfl⟩

/-- C2: the derived-config construction of crook.py always raises,
because the CaseSearchConfig dataclass declares no copy method, while
the dataclasses.replace construction of main.py always succeeds and
differs from its parent in the start and end dates only. -/
theorem c2_derived_config (cfg : CaseSearchConfig) (d s e : String) :
    crookDerivedConfig cfg d =
      Except.error "AttributeError: CaseSearchConfig object has no attribute copy" ∧
    (mainDerivedConfig cfg s e).start_date = s ∧
    (mainDerivedConfig cfg s e).end_date = e ∧
    (mainDerivedConfig cfg s e).court_departments = cfg.court_departments ∧
    (mainDerivedConfig cfg s e).court_divisions = cfg.court_divisions ∧
    (mainDerivedConfig cfg s e).court_locations = cfg.court_locations ∧
    (mainDerivedConfig cfg s e).results_per_page = cfg.results_per_page ∧
    (mainDerivedConfig cfg s e).case_types = cfg.case_types ∧
    (mainDerivedConfig cfg s e).cities = cfg.cities ∧
    (mainDerivedConfig cfg s e).statuses = cfg.statuses ∧
    (mainDerivedConfig cfg s e).party_types = cfg.party_types ∧
    (mainDerivedConfig cfg s e).min_sleep = cfg.min_sleep ∧
    (mainDerivedConfig cfg s e).max_sleep = cfg.max_sleep :=
  ⟨rfl, rfl, rfl, rfl, rfl, rfl, rfl, rfl, rfl, rfl, rfl, rfl, rfl⟩

/-- C3: on a store as loaded by load_records, which has no coverage key,
the crook.py statement that should log a window coverage entry raises
KeyError instead of storing anything; the later found-counter update
also raises KeyError because the run-report coverage dict never received
the entry; and the main.py run-report entry carries the keys factor,
start_date, end_date rather than the claimed counter fields. -/
theorem c3_coverage_entry_misplaced :
    crookLogCoverage [] "09/01/2025" 1 = Except.error "KeyError: coverage" ∧
    (∀ recs : List (String × PyVal),
      crookLogCoverage [("25H84SP001234", StoreVal.caseRec recs)] "09/01/2025" 1 =
        Except.error "KeyError: coverage") ∧
    crookSetCoverageFound [] "09/01/2025" 7 = Except.error "KeyError: 09/01/2025" ∧
    (mainCovEntry 1 "09/01/2025" "09/03/2025").map Prod.fst =
      ["factor", "start_date", "end_date"] ∧
    (["factor", "start_date", "end_date"] : List String) ≠
      ["found", "duplicates", "recorded", "accessible_fraction"] :=
  ⟨rfl, fun _ => rfl, rfl, rfl, by decide⟩

/-- C1 (amended): the crook.py orchestrator persists on every exit path:
whatever the crawl body did and whether or not it raised, the script
closes the session, computes the elapsed time, writes the run report and
the records store, and propagates no exception; the main.py orchestrator
runs the same persistence tail exactly when the crawl body completed
without raising, and otherwise terminates with the exception before any
of it. -/
theorem c1_exit_path_persistence (crawl : List CrawlEffect × Option String) :
    ((crookScript crawl).2 = Option.none ∧
     CrawlEffect.closeSession ∈ (crookScript crawl).1 ∧
     CrawlEffect.computeElapsed ∈ (crookScript crawl).1 ∧
     CrawlEffect.writeRunReport ∈ (crookScript crawl).1 ∧
     CrawlEffect.writeStore ∈ (crookScript crawl).1) ∧
    (crawl.2 = Option.none →
      mainScript crawl = (crawl.1 ++ cleanupAndPersistEffects, Option.none)) ∧
    (∀ m, crawl.2 = Option.some m → mainScript crawl = (crawl.1, Option.some m)) := by
  obtain ⟨es, exn⟩ := crawl
  rcases exn with _ | m
  · refine ⟨⟨rfl, ?_, ?_, ?_, ?_⟩, ?_, ?_⟩
    · simp [crookScript, cleanupAndPersistEffects]
    · simp [crookScript, cleanupAndPersistEffects]
    · simp [crookScript, cleanupAndPersistEffects]
    · simp [crookScript, cleanupAndPersistEffects]
    · intro _; rfl
    · intro m hm; cases hm
  · refine ⟨⟨rfl, ?_, ?_, ?_, ?_⟩, ?_, ?_⟩
    · simp [crookScript, cleanupAndPersistEffects]
    · simp [crookScript, cleanupAndPersistEffects]
    · simp [crookScript, cleanupAndPersistEffects]
    · simp [crookScript, cleanupAndPersistEffects]
    · intro h; cases h
    · intro m2 hm; cases hm; rfl

/-- Witness for C1 at a concrete raising crawl: the crook.py script still
records the store write on its effect list. -/
theorem c1_exit_path_persistence_witness :
    CrawlEffect.writeStore ∈ (crookScript ([], Option.some "SessionLost")).1 :=
  (c1_exit_path_persistence ([], Option.some "SessionLost")).1.2.2.2.2

/-- C1 counterexample: a fatal exception during the main.py crawl ends
the script with no cleanup effect at all, so neither the run report nor
the records store is written on that exit path. -/
theorem c1_main_drops_persistence_counterexample :
    mainScript ([], Option.some "InvalidSessionIdException") =
      ([], Option.some "InvalidSessionIdException") ∧
    CrawlEffect.writeRunReport ∉ (mainScript ([], Option.some "InvalidSessionIdException")).1 ∧
    CrawlEffect.writeStore ∉ (mainScript ([], Option.some "InvalidSessionIdException")).1 := by
  refine ⟨rfl, ?_, ?_⟩ <;> simp [mainScript]

/-- A binding present in the run results survives the whole detail loop
unchanged: the loop never overwrites an existing entry. -/
theorem recordLoop_preserves {α : Type} (a : String) (p : α) :
    ∀ (cs rs : List (String × α)), List.lookup a rs = some p →
      List.lookup a (recordLoop rs cs).1 = some p := by
  intro cs
  induction cs with
  | nil => intro rs h; exact h
  | cons hd tl ih =>
    intro rs h
    obtain ⟨c, q⟩ := hd
    simp only [recordLoop]
    split
    · exact ih rs h
    · exact ih (rs ++ [(c, q)]) (lookup_append_of_some h)

/-- C7 (amended): a case number occurring twice on one page adds exactly
one to the skipped count, and any higher multiplicity still adds exactly
one, since the counter counts distinct duplicated numbers; the detail
loop records a twice-occurring case exactly once, with the first
extraction, and an entry already in the run result set is never
overwritten by later occurrences. -/
theorem c7_duplicate_accounting :
    (∀ a : String, duplicateCaseCount [a, a] = 1) ∧
    (∀ (a : String) (k : Nat), 2 ≤ k → duplicateCaseCount (List.replicate k a) = 1) ∧
    (∀ (a : String) (p q : Nat),
      recordLoop ([] : List (String × Nat)) [(a, p), (a, q)] = ([(a, p)], [a])) ∧
    (∀ (α : Type) (rs cs : List (String × α)) (a : String) (p : α),
      List.lookup a rs = some p → List.lookup a (recordLoop rs cs).1 = some p) := by
  refine ⟨?_, ?_, ?_, fun α rs cs a p h => recordLoop_preserves a p cs rs h⟩
  · intro a
    have hd : ([a, a] : List String).dedup = [a] := by
      simp [List.dedup_cons_of_mem]
    have hc : List.count a [a, a] = 2 := by simp
    simp [duplicateCaseCount, hd, hc]
  · intro a k hk
    have hd : (List.replicate k a).dedup = [a] :=
      List.replicate_dedup (by omega)
    have hc : decide (1 < List.count a (List.replicate k a)) = true := by
      simp only [List.count_replicate_self, decide_eq_true_eq]
      omega
    have h1k : 1 < k := by omega
    unfold duplicateCaseCount
    rw [hd]
    simp [List.filter_cons, hc, h1k]
  · intro a p q
    simp [recordLoop, List.lookup]

/-- Witness for C7 at concrete inputs: a page with one case number twice
and a page with it three times. -/
theorem c7_duplicate_accounting_witness :
    duplicateCaseCount ["25H84SP000001", "25H84SP000001"] = 1 ∧
    (2 ≤ 3 ∧ duplicateCaseCount (List.replicate 3 "A") = 1) ∧
    recordLoop ([] : List (String × Nat)) [("A", 10), ("A", 20)] = ([("A", 10)], ["A"]) ∧
    (List.lookup "A" [("A", 10)] = some 10 ∧
      List.lookup "A" (recordLoop [("A", 10)] [("A", 99)]).1 = some 10) := by
  obtain ⟨h1, h2, h3, h4⟩ := c7_duplicate_accounting
  exact ⟨h1 _, ⟨by norm_num, h2 "A" 3 (by norm_num)⟩, h3 "A" 10 20,
    ⟨by decide, h4 Nat [("A", 10)] [("A", 99)] "A" 10 (by decide)⟩⟩

/-- C7 counterexample: a case number occurring three times on one page
adds one to the skipped count, not the two occurrences beyond the first
that the claim demands, though the case is still recorded exactly once. -/
theorem c7_triple_occurrence_counterexample :
    duplicateCaseCount ["A", "A", "A"] = 1 ∧ (1 : Nat) ≠ 3 - 1 ∧
    recordLoop ([] : List (String × Nat)) [("A", 1), ("A", 2), ("A", 3)] =
      ([("A", 1)], ["A"]) := by
  decide

/-- C6 (amended): street tokens are always joined with single spaces, so
the example row renders with the trailing unit token inline; city and
state are joined with a comma, the zip is appended after a space only
when present, and the street line and the place line are joined with a
comma only when the place line is non-empty. -/
theorem c6_address_formatting :
    (formatAddress ["23", "Prince", "Street", "9"] ["Danvers", "MA", "01923"]).1 =
      "23 Prince Street 9, Danvers, MA 01923" ∧
    (∀ sp : List String, formatAddress sp [] = (String.intercalate " " sp, "")) ∧
    (∀ sp : List String, formatAddress sp ["Danvers", "MA"] =
      (String.intercalate " " sp ++ ", " ++ "Danvers, MA", "")) ∧
    (∀ sp : List String, formatAddress sp ["Danvers", "MA", "01923"] =
      (String.intercalate " " sp ++ ", " ++ "Danvers, MA 01923", "01923")) :=
  ⟨rfl, fun _ => rfl, fun _ => rfl, fun _ => rfl⟩

/-- C6 counterexample: the formatter does not produce the unit-number
rendering the claim states for the example row, because no code path
treats a purely numeric last street token specially. -/
theorem c6_unit_number_counterexample :
    (formatAddress ["23", "Prince", "Street", "9"] ["Danvers", "MA", "01923"]).1 =
      "23 Prince Street 9, Danvers, MA 01923" ∧
    (formatAddress ["23", "Prince", "Street", "9"] ["Danvers", "MA", "01923"]).1 ≠
      "23 Prince Street, Unit 9, Danvers, MA 01923" := by
  refine ⟨rfl, ?_⟩
  decide

end LegalAid
